import Mathlib

/-!
Shallow embedding of the audio-call frontend client
(`src/frontend/lib/api.ts`, the upload modal, the call detail page and the
audio player) together with theorems about its validation, error handling
and formatting behaviour.

JavaScript idioms are modelled explicitly: `||`-defaulting on possibly
absent strings, truthiness of optional strings, `String.prototype.includes`,
`String.prototype.padStart`, `Math.floor` and the `%` operator on numbers.
-/

/-- Result of the JavaScript expression `a || b` where `a` is a possibly
absent string (absent and the empty string are falsy). -/
def jsOr : Option String → String → String
  | none, d => d
  | some s, d => if s = "" then d else s

/-- Truthiness of a possibly absent JavaScript string: absent and `""` are
falsy, every other string is truthy. -/
def jsTruthy : Option String → Bool
  | none => false
  | some s => s != ""

/-- Whether the first character list is an initial segment of the second. -/
def charsStartWith : List Char → List Char → Bool
  | [], _ => true
  | _ :: _, [] => false
  | c :: cs, d :: ds => c == d && charsStartWith cs ds

/-- Whether the first character list occurs contiguously in the second. -/
def charsOccur (t : List Char) : List Char → Bool
  | [] => charsStartWith t []
  | d :: ds => charsStartWith t (d :: ds) || charsOccur t ds

/-- JavaScript `s.includes(t)`: `t` occurs as a substring of `s`. -/
def jsIncludes (s t : String) : Bool := charsOccur t.data s.data

/-- JavaScript `s.endsWith(t)`: `t` is a final segment of `s`. -/
def jsEndsWith (s t : String) : Bool :=
  charsStartWith t.data.reverse s.data.reverse

/-- Lowercasing of one character as JavaScript `toLowerCase` acts on the
ASCII range. -/
def jsCharToLower (c : Char) : Char :=
  if 'A' ≤ c && c ≤ 'Z' then Char.ofNat (c.toNat + 32) else c

/-- JavaScript `s.toLowerCase()` on ASCII strings. -/
def jsToLower (s : String) : String := String.mk (s.data.map jsCharToLower)

/-- Whitespace as stripped by JavaScript `trim` (ASCII range). -/
def jsIsSpace (c : Char) : Bool :=
  c == ' ' || c == '\t' || c == '\n' || c == '\r'

/-- JavaScript `s.trim()`: strip leading and trailing whitespace. -/
def jsTrim (s : String) : String :=
  String.mk ((s.data.dropWhile jsIsSpace).reverse.dropWhile jsIsSpace).reverse

/-- JavaScript `s.padStart(n, c)`: left-pad `s` with `c` up to length `n`. -/
def jsPadStart (s : String) (n : Nat) (c : Char) : String :=
  String.mk (List.replicate (n - s.length) c) ++ s

/-! ## The data model of `src/frontend/lib/api.ts` -/

/-- Base URL of the backend, `process.env.NEXT_PUBLIC_API_URL` defaulting to
`http://localhost:8000`; the embedding fixes the default. -/
def API_BASE_URL : String := "http://localhost:8000"

/-- The `CallRecord` interface of `src/frontend/lib/api.ts`. -/
structure CallRecord where
  id : String
  filename : String
  upload_timestamp : String
  transcript : String
  summary : String
  tags : List String
  deriving Repr, DecidableEq

/-- Field names of the `CallRecord` interface of `src/frontend/lib/api.ts`,
in declaration order. -/
def callRecordFields : List String :=
  ["id", "filename", "upload_timestamp", "transcript", "summary", "tags"]

/-- The `ApiError` class: a message plus the optional HTTP status and status
text passed to its constructor. -/
structure ApiError where
  message : String
  status : Option Nat
  statusText : Option String
  deriving Repr, DecidableEq

/-- Observable content of a `fetch` `Response` as consumed by
`handleResponse`: ok flag, status, status text, the `content-type` header
(`none` when the header is absent), whether `response.json()` parses, the
`detail` and `message` fields of the parsed error body (absent when the
field is missing), whether `response.text()` succeeds and its value, and
the value the body parses to on the success path. -/
structure Response (α : Type) where
  ok : Bool
  status : Nat
  statusText : String
  contentType : Option String
  bodyJsonParses : Bool
  detail : Option String
  message : Option String
  textOk : Bool
  textBody : String
  jsonValue : α

/-- Outcome of the promise returned by `handleResponse`: a parsed value, the
untyped empty object `\x7b\x7d as T` returned for non-JSON bodies, a thrown
`ApiError`, or a rejected parse from `response.json()` on the success
path. -/
inductive FetchOutcome (α : Type) where
  | success (a : α)
  | emptyObject
  | apiError (e : ApiError)
  | jsonRejected
  deriving Repr, DecidableEq

/-- The error text computed by the failure branch of `handleResponse`:
`statusText`, replaced by `errorData.detail || errorData.message ||
statusText` when the body parses as JSON, and by `response.text()` (falling
back to `statusText`) when it does not. -/
def handleResponseErrorText {α : Type} (r : Response α) : String :=
  if r.bodyJsonParses then jsOr r.detail (jsOr r.message r.statusText)
  else if r.textOk then r.textBody else r.statusText

/-- The `handleResponse` function of `src/frontend/lib/api.ts`. -/
def handleResponse {α : Type} (r : Response α) : FetchOutcome α :=
  if r.ok = false then
    .apiError
      { message :=
          if handleResponseErrorText r = "" then
            "HTTP error! status: " ++ toString r.status
          else handleResponseErrorText r
        status := some r.status
        statusText := some r.statusText }
  else if (match r.contentType with
           | none => true
           | some ct => !(jsIncludes ct "application/json")) then
    .emptyObject
  else if r.bodyJsonParses then .success r.jsonValue
  else .jsonRejected

/-! ## File upload (`uploadAudioFile` in api.ts, `validateFile` in the
upload modal) -/

/-- A browser `File` as observed by the client code: `name`, MIME `type`
(possibly the empty string) and `size` in bytes. -/
structure JsFile where
  name : String
  type : String
  size : Nat
  deriving Repr, DecidableEq

/-- The `validTypes` list shared by `uploadAudioFile` and the upload
modal's `validateFile`. -/
def validTypes : List String :=
  ["audio/wav", "audio/wave", "audio/x-wav", "audio/mpeg", "audio/mp3"]

/-- The type check of `uploadAudioFile` and `validateFile`: the MIME type
is in `validTypes`, or the lowercased file name ends in `.wav` or `.mp3`. -/
def isValidType (f : JsFile) : Bool :=
  validTypes.contains f.type
    || jsEndsWith (jsToLower f.name) ".wav"
    || jsEndsWith (jsToLower f.name) ".mp3"

/-- What `uploadAudioFile` does with a file: throw an `ApiError` before any
network activity, or POST the file to the upload endpoint. -/
inductive UploadAction where
  | reject (e : ApiError)
  | post (url : String) (f : JsFile)
  deriving Repr, DecidableEq

/-- The `uploadAudioFile` function of `src/frontend/lib/api.ts`: rejects a
file of invalid type with an `ApiError` of status 400 without calling
`fetch`; otherwise issues the POST to `/api/calls/upload`. -/
def uploadAudioFile (f : JsFile) : UploadAction :=
  if isValidType f = false then
    .reject { message := "Invalid file type. Please upload a WAV or MP3 file."
              status := some 400
              statusText := none }
  else .post (API_BASE_URL ++ "/api/calls/upload") f

/-- The `maxSize` constant of the upload modal's `validateFile`. -/
def maxSize : Nat := 50 * 1024 * 1024

/-- The `validateFile` function of the upload modal: returns the error
message of the first failing check (type, then size, then emptiness), or
nothing when the file is acceptable. -/
def validateFile (f : JsFile) : Option String :=
  if isValidType f = false then
    some "Invalid file type. Please upload a WAV or MP3 file."
  else if f.size > maxSize then
    some "File size exceeds 50MB limit."
  else if f.size = 0 then
    some "File is empty."
  else none

/-- The state of the upload modal that drives uploading: the selected file
and the displayed error. -/
structure ModalState where
  file : Option JsFile
  error : Option String
  deriving Repr, DecidableEq

/-- The modal's state when it opens: no file selected, no error. -/
def initialModalState : ModalState := { file := none, error := none }

/-- The `handleFileSelect` function of the upload modal: clears the error,
validates the candidate file, and either records the validation error
(leaving the selection unchanged) or selects the file. -/
def handleFileSelect (f : JsFile) (s : ModalState) : ModalState :=
  match validateFile f with
  | some e => { s with error := some e }
  | none => { s with file := some f, error := none }

/-- The upload performed by the modal's `handleUpload`: nothing when no
file is selected (it only sets an error), otherwise the action of
`uploadAudioFile` on the selected file. -/
def handleUploadAction (s : ModalState) : Option UploadAction :=
  s.file.map uploadAudioFile

/-! ## List and get requests (`getCalls`, `getCallById` in api.ts) -/

/-- The optional `params` argument of `getCalls`. -/
structure GetCallsParams where
  tag : Option String
  sort : Option String
  deriving Repr, DecidableEq

/-- The query parameters accumulated by `getCalls`: `tag` is appended only
when `params?.tag` is truthy, then `sort` only when `params?.sort` is. -/
def getCallsQueryParams (p : Option GetCallsParams) : List (String × String) :=
  (if jsTruthy (p.bind (·.tag)) then [("tag", jsOr (p.bind (·.tag)) "")] else [])
    ++ (if jsTruthy (p.bind (·.sort)) then [("sort", jsOr (p.bind (·.sort)) "")] else [])

/-- Serialization of query parameters as `URLSearchParams.toString` does for
parameter values that need no percent-encoding. -/
def queryString (ps : List (String × String)) : String :=
  String.intercalate "&" (ps.map (fun kv => kv.1 ++ "=" ++ kv.2))

/-- The URL requested by `getCalls`: the list endpoint, with a `?` and the
query string exactly when the query string is non-empty. -/
def getCallsUrl (p : Option GetCallsParams) : String :=
  API_BASE_URL ++ "/api/calls"
    ++ (if queryString (getCallsQueryParams p) = "" then ""
        else "?" ++ queryString (getCallsQueryParams p))

/-- The `getCallById` function of `src/frontend/lib/api.ts`, as the URL it
requests and the outcome of `handleResponse` on the server's response. -/
def getCallById (id : String) (r : Response CallRecord) :
    String × FetchOutcome CallRecord :=
  (API_BASE_URL ++ "/api/calls/" ++ id, handleResponse r)

/-! ## The tag editor of the call detail page
(`src/frontend/app/calls/[id]/page.tsx`) -/

/-- The state of the call detail page that `handleAddTag` reads and
writes: the displayed record, the tag input field, and the tag error. -/
structure TagPageState where
  call : Option CallRecord
  newTag : String
  tagError : Option String
  deriving Repr, DecidableEq

/-- The `handleAddTag` function of the call detail page, parameterized by
the `addCallTag` API call (declared in the page's imports; its body lives
in the backend client and is not part of this embedding). Returns the
updated page state together with the `(id, tag)` argument pair of the
`addCallTag` invocation, or `none` when no request was issued. -/
def handleAddTag (addCallTag : String → String → Except ApiError CallRecord)
    (s : TagPageState) : TagPageState × Option (String × String) :=
  match s.call with
  | none => (s, none)
  | some c =>
    let trimmedTag := jsTrim s.newTag
    if trimmedTag = "" then
      ({ s with tagError := some "Tag cannot be empty." }, none)
    else
      match addCallTag c.id trimmedTag with
      | .ok updatedCall =>
        ({ s with call := some updatedCall, newTag := "", tagError := none },
         some (c.id, trimmedTag))
      | .error e =>
        ({ s with tagError := some e.message }, some (c.id, trimmedTag))

/-! ## The audio player (`src/frontend/components/AudioPlayer.tsx`) -/

/-- A JavaScript number as observed by `formatTime`: `NaN` or a finite
value, modelled as a rational. -/
inductive JsNum where
  | nan
  | num (q : ℚ)

/-- JavaScript truncation toward zero, used by the `%` operator. -/
def jsTrunc (q : ℚ) : ℤ := if 0 ≤ q then ⌊q⌋ else -⌊-q⌋

/-- The JavaScript `%` operator on finite numbers:
`a - b * trunc(a / b)`. -/
def jsMod (a b : ℚ) : ℚ := a - b * (jsTrunc (a / b) : ℚ)

/-- The `formatTime` function of the audio player: `0:00` for `NaN`,
otherwise `Math.floor(seconds / 60)`, a colon, and
`Math.floor(seconds % 60)` left-padded with `0` to two digits. -/
def formatTime : JsNum → String
  | .nan => "0:00"
  | .num seconds =>
    let mins : ℤ := ⌊seconds / 60⌋
    let secs : ℤ := ⌊jsMod seconds 60⌋
    toString mins ++ ":" ++ jsPadStart (toString secs) 2 '0'

/-! ## Theorems -/

/-- C1. For every file failing the type, size or emptiness validation
check, selecting it in the upload modal records exactly the validation
error, leaves no file selected, and consequently the upload handler issues
no network request to the upload endpoint (and so no external service is
invoked and no record is created); moreover `uploadAudioFile` itself
rejects a type-invalid file with an `ApiError` before any `fetch`. -/
theorem upload_validation_blocks_request (f : JsFile)
    (h : validateFile f ≠ none) :
    (handleFileSelect f initialModalState).error = validateFile f
    ∧ (handleFileSelect f initialModalState).file = none
    ∧ handleUploadAction (handleFileSelect f initialModalState) = none
    ∧ (isValidType f = false → ∃ e, uploadAudioFile f = .reject e) := by
  constructor
  · unfold handleFileSelect
    cases hv : validateFile f with
    | none => exact absurd hv h
    | some e => simp
  constructor
  · unfold handleFileSelect
    cases hv : validateFile f with
    | none => exact absurd hv h
    | some e => simp [initialModalState]
  constructor
  · unfold handleFileSelect
    cases hv : validateFile f with
    | none => exact absurd hv h
    | some e => simp [initialModalState, handleUploadAction]
  · intro hiv
    refine ⟨{ message := "Invalid file type. Please upload a WAV or MP3 file.",
              status := some 400, statusText := none }, ?_⟩
    simp [uploadAudioFile, hiv]

/-- Witness for C1 on a concrete text file: it fails validation, and the
theorem yields that no upload request is issued. -/
theorem upload_validation_blocks_request_witness :
    validateFile ⟨"a.txt", "text/plain", 5⟩ ≠ none
    ∧ handleUploadAction
        (handleFileSelect ⟨"a.txt", "text/plain", 5⟩ initialModalState) = none :=
  ⟨by decide,
   (upload_validation_blocks_request ⟨"a.txt", "text/plain", 5⟩
     (by decide)).2.2.1⟩

/-- C2. The upload modal's `validateFile` runs its checks in the order
type, size, emptiness; the reported error is that of the earliest violated
check, and a file passing all three checks validates with no error. -/
theorem validateFile_check_order (f : JsFile) :
    (isValidType f = false →
      validateFile f = some "Invalid file type. Please upload a WAV or MP3 file.")
    ∧ (isValidType f = true → f.size > maxSize →
      validateFile f = some "File size exceeds 50MB limit.")
    ∧ (isValidType f = true → f.size ≤ maxSize → f.size = 0 →
      validateFile f = some "File is empty.")
    ∧ (isValidType f = true → f.size ≤ maxSize → f.size ≠ 0 →
      validateFile f = none) := by
  refine ⟨fun h1 => ?_, fun h1 h2 => ?_, fun h1 h2 h3 => ?_, fun h1 h2 h3 => ?_⟩
  · simp [validateFile, h1]
  · simp [validateFile, h1, h2]
  · simp [validateFile, h1, h3, Nat.not_lt.mpr h2]
  · simp [validateFile, h1, h3, Nat.not_lt.mpr h2]

/-- Witness for C2: a type-invalid oversized file reports the type error,
an oversized WAV reports the size error, an empty WAV reports the
emptiness error, and a small WAV validates. -/
theorem validateFile_check_order_witness :
    validateFile ⟨"a.txt", "text/plain", 99999999⟩
        = some "Invalid file type. Please upload a WAV or MP3 file."
    ∧ validateFile ⟨"a.wav", "", 52428801⟩
        = some "File size exceeds 50MB limit."
    ∧ validateFile ⟨"a.wav", "", 0⟩ = some "File is empty."
    ∧ validateFile ⟨"a.wav", "", 5⟩ = none :=
  ⟨(validateFile_check_order ⟨"a.txt", "text/plain", 99999999⟩).1 (by decide),
   (validateFile_check_order ⟨"a.wav", "", 52428801⟩).2.1 (by decide) (by decide),
   (validateFile_check_order ⟨"a.wav", "", 0⟩).2.2.1 (by decide) (by decide) (by decide),
   (validateFile_check_order ⟨"a.wav", "", 5⟩).2.2.2 (by decide) (by decide) (by decide)⟩

/-- C3. A file passes the type check exactly when its content type is one
of the five WAV/MP3 MIME types or its lowercased name ends in `.wav` or
`.mp3`; any other file is rejected with the invalid-type error. -/
theorem isValidType_characterization (f : JsFile) :
    (isValidType f = true ↔
      (f.type ∈ ["audio/wav", "audio/wave", "audio/x-wav", "audio/mpeg", "audio/mp3"]
        ∨ jsEndsWith (jsToLower f.name) ".wav" = true
        ∨ jsEndsWith (jsToLower f.name) ".mp3" = true))
    ∧ (isValidType f = false →
      validateFile f = some "Invalid file type. Please upload a WAV or MP3 file.") := by
  constructor
  · simp [isValidType, validTypes, List.elem_iff]
    tauto
  · intro h
    simp [validateFile, h]

/-- Witness for C3: a file accepted through its MIME type, one accepted
through its uppercase extension, and one with neither rejected as an
invalid type. -/
theorem isValidType_characterization_witness :
    isValidType ⟨"voicemail", "audio/mpeg", 7⟩ = true
    ∧ isValidType ⟨"CALL.WAV", "", 7⟩ = true
    ∧ validateFile ⟨"notes.pdf", "application/pdf", 7⟩
        = some "Invalid file type. Please upload a WAV or MP3 file." :=
  ⟨(isValidType_characterization ⟨"voicemail", "audio/mpeg", 7⟩).1.mpr
     (Or.inl (by decide)),
   (isValidType_characterization ⟨"CALL.WAV", "", 7⟩).1.mpr
     (Or.inr (Or.inl (by decide))),
   (isValidType_characterization ⟨"notes.pdf", "application/pdf", 7⟩).2 (by decide)⟩

/-- C4. The size bound is exactly 50 MiB = 52428800 bytes: for a file of
allowed type, a byte length strictly greater than 52428800 is rejected
with the size error, while a byte length equal to 52428800 passes the size
check and validates. -/
theorem size_bound_exact (f : JsFile) (ht : isValidType f = true) :
    maxSize = 52428800
    ∧ (f.size > 52428800 → validateFile f = some "File size exceeds 50MB limit.")
    ∧ (f.size = 52428800 → validateFile f = none) := by
  refine ⟨rfl, fun h => ?_, fun h => ?_⟩
  · simp [validateFile, ht, maxSize]
    omega
  · simp [validateFile, ht, maxSize, h]

/-- Witness for C4: a 52428801-byte WAV is rejected for size and a
52428800-byte WAV validates. -/
theorem size_bound_exact_witness :
    isValidType ⟨"a.wav", "", 52428801⟩ = true
    ∧ validateFile ⟨"a.wav", "", 52428801⟩ = some "File size exceeds 50MB limit."
    ∧ validateFile ⟨"b.wav", "", 52428800⟩ = none :=
  ⟨by decide,
   (size_bound_exact ⟨"a.wav", "", 52428801⟩ (by decide)).2.1 (by decide),
   (size_bound_exact ⟨"b.wav", "", 52428800⟩ (by decide)).2.2 (by decide)⟩

/-- C5. When the server answers the get-call request with a non-ok status
and a JSON body carrying a non-empty `detail` message, `getCallById`
rejects with an `ApiError` holding that detail message, the HTTP status
and its status text; and `getCallById` resolves with a record only on an
ok response. -/
theorem getCallById_error_propagation (id : String) (r : Response CallRecord)
    (d : String) (hok : r.ok = false) (hjson : r.bodyJsonParses = true)
    (hd : r.detail = some d) (hne : d ≠ "") :
    (getCallById id r).2
        = .apiError { message := d, status := some r.status,
                      statusText := some r.statusText }
    ∧ ∀ (r' : Response CallRecord) (rec : CallRecord),
        (getCallById id r').2 = .success rec → r'.ok = true := by
  constructor
  · have htext : handleResponseErrorText r = d := by
      simp [handleResponseErrorText, hjson, hd, jsOr, hne]
    simp [getCallById, handleResponse, hok, htext, hne]
  · intro r' rec h
    by_contra hok'
    simp [getCallById, handleResponse, eq_false_of_ne_true hok'] at h

/-- Witness for C5 on a concrete 404 response with detail
`Call not found`. -/
theorem getCallById_error_propagation_witness :
    (getCallById "missing"
        { ok := false, status := 404, statusText := "Not Found",
          contentType := some "application/json", bodyJsonParses := true,
          detail := some "Call not found", message := none, textOk := true,
          textBody := "", jsonValue := ⟨"", "", "", "", "", []⟩ }).2
      = .apiError { message := "Call not found", status := some 404,
                    statusText := some "Not Found" } :=
  (getCallById_error_propagation "missing"
    { ok := false, status := 404, statusText := "Not Found",
      contentType := some "application/json", bodyJsonParses := true,
      detail := some "Call not found", message := none, textOk := true,
      textBody := "", jsonValue := ⟨"", "", "", "", "", []⟩ }
    "Call not found" rfl rfl rfl (by decide)).1

/-- C6 counterexample: the `CallRecord` interface returned by the get-call
operation has no `status` field, so the record is not "full including
status" as claimed. -/
theorem callRecord_no_status_field : "status" ∉ callRecordFields := by
  decide

/-- C6 amended: the record resolved by the get-call operation on an ok JSON
response is the full parsed record, whose interface includes the
`transcript`, `summary` and `tags` fields (but no `status` field). -/
theorem getCallById_returns_full_record (id : String) (r : Response CallRecord)
    (hok : r.ok = true) (hjson : r.bodyJsonParses = true)
    (hct : (match r.contentType with
            | none => true
            | some ct => !(jsIncludes ct "application/json")) = false) :
    (getCallById id r).2 = .success r.jsonValue
    ∧ "transcript" ∈ callRecordFields
    ∧ "summary" ∈ callRecordFields
    ∧ "tags" ∈ callRecordFields := by
  refine ⟨?_, by decide, by decide, by decide⟩
  simp [getCallById, handleResponse, hok, hjson, hct]

/-- Witness for C6 on a concrete ok JSON response: the full record comes
back unchanged. -/
theorem getCallById_returns_full_record_witness :
    (getCallById "1"
        { ok := true, status := 200, statusText := "OK",
          contentType := some "application/json", bodyJsonParses := true,
          detail := none, message := none, textOk := true, textBody := "",
          jsonValue := ⟨"1", "a.wav", "2024-01-01T00:00:00Z", "hello", "hi",
                        ["greeting"]⟩ }).2
      = .success ⟨"1", "a.wav", "2024-01-01T00:00:00Z", "hello", "hi",
                  ["greeting"]⟩ :=
  (getCallById_returns_full_record "1"
    { ok := true, status := 200, statusText := "OK",
      contentType := some "application/json", bodyJsonParses := true,
      detail := none, message := none, textOk := true, textBody := "",
      jsonValue := ⟨"1", "a.wav", "2024-01-01T00:00:00Z", "hello", "hi",
                    ["greeting"]⟩ }
    rfl rfl (by decide)).1

/-- C7. On the call detail page with a record loaded, adding a tag whose
trimmed value is empty sets the error `Tag cannot be empty.` and issues no
add-tag request; adding a tag with non-empty trimmed value invokes the
add-tag operation with the record id and the trimmed value, and on success
replaces the displayed record with the updated record it returns. -/
theorem handleAddTag_spec (addCallTag : String → String → Except ApiError CallRecord)
    (s : TagPageState) (c : CallRecord) (hc : s.call = some c) :
    (jsTrim s.newTag = "" →
      handleAddTag addCallTag s
        = ({ s with tagError := some "Tag cannot be empty." }, none))
    ∧ (∀ u : CallRecord, jsTrim s.newTag ≠ "" →
        addCallTag c.id (jsTrim s.newTag) = .ok u →
        handleAddTag addCallTag s
          = ({ s with call := some u, newTag := "", tagError := none },
             some (c.id, jsTrim s.newTag))) := by
  constructor
  · intro h
    simp [handleAddTag, hc, h]
  · intro u hne hok
    simp [handleAddTag, hc, hne, hok]

/-- Witness for C7: a whitespace-only tag sets the emptiness error with no
request, and the tag `" urgent "` is sent trimmed and the updated record
replaces the displayed one. -/
theorem handleAddTag_spec_witness :
    handleAddTag (fun _ _ => .ok ⟨"1", "a.wav", "t", "", "", ["urgent"]⟩)
        { call := some ⟨"1", "a.wav", "t", "", "", []⟩, newTag := "   ",
          tagError := none }
      = ({ call := some ⟨"1", "a.wav", "t", "", "", []⟩, newTag := "   ",
           tagError := some "Tag cannot be empty." }, none)
    ∧ handleAddTag (fun _ _ => .ok ⟨"1", "a.wav", "t", "", "", ["urgent"]⟩)
        { call := some ⟨"1", "a.wav", "t", "", "", []⟩, newTag := " urgent ",
          tagError := none }
      = ({ call := some ⟨"1", "a.wav", "t", "", "", ["urgent"]⟩, newTag := "",
           tagError := none }, some ("1", "urgent")) :=
  ⟨(handleAddTag_spec (fun _ _ => .ok ⟨"1", "a.wav", "t", "", "", ["urgent"]⟩)
      { call := some ⟨"1", "a.wav", "t", "", "", []⟩, newTag := "   ",
        tagError := none } ⟨"1", "a.wav", "t", "", "", []⟩ rfl).1 (by decide),
   (handleAddTag_spec (fun _ _ => .ok ⟨"1", "a.wav", "t", "", "", ["urgent"]⟩)
      { call := some ⟨"1", "a.wav", "t", "", "", []⟩, newTag := " urgent ",
        tagError := none } ⟨"1", "a.wav", "t", "", "", []⟩ rfl).2
     ⟨"1", "a.wav", "t", "", "", ["urgent"]⟩ (by decide) rfl⟩

/-- C8. `handleResponse` throws an `ApiError` exactly when the response is
not ok; and on an ok response whose content type is absent or does not
contain `application/json`, it resolves with the empty object without
touching the body. -/
theorem handleResponse_apiError_iff {α : Type} (r : Response α) :
    ((∃ e, handleResponse r = .apiError e) ↔ r.ok = false)
    ∧ (r.ok = true →
        (r.contentType = none
          ∨ ∀ ct, r.contentType = some ct → jsIncludes ct "application/json" = false) →
        handleResponse r = .emptyObject) := by
  constructor
  · constructor
    · rintro ⟨e, he⟩
      by_contra hok
      rw [Bool.not_eq_false] at hok
      by_cases hct : (match r.contentType with
                      | none => true
                      | some ct => !(jsIncludes ct "application/json")) = true
      · simp [handleResponse, hok, hct] at he
      · by_cases hp : r.bodyJsonParses = true
        · simp [handleResponse, hok, hct, hp] at he
        · simp [handleResponse, hok, hct, hp] at he
    · intro hok
      refine ⟨{ message :=
                  if handleResponseErrorText r = "" then
                    "HTTP error! status: " ++ toString r.status
                  else handleResponseErrorText r,
                status := some r.status, statusText := some r.statusText }, ?_⟩
      simp [handleResponse, hok]
  · intro hok hct
    have hm : (match r.contentType with
               | none => true
               | some ct => !(jsIncludes ct "application/json")) = true := by
      cases hc : r.contentType with
      | none => rfl
      | some ct =>
        rcases hct with h | h
        · rw [hc] at h; exact absurd h (by simp)
        · simp [h ct hc]
    simp [handleResponse, hok, hm]

/-- Witness for C8: a 500 text response is thrown as an `ApiError`, an ok
`text/html` response resolves with the empty object, and an ok JSON
response resolves with the parsed value, not an `ApiError`. -/
theorem handleResponse_apiError_iff_witness :
    (∃ e, handleResponse (α := CallRecord)
        { ok := false, status := 500, statusText := "Internal Server Error",
          contentType := some "text/plain", bodyJsonParses := false,
          detail := none, message := none, textOk := true,
          textBody := "boom", jsonValue := ⟨"", "", "", "", "", []⟩ }
      = .apiError e)
    ∧ handleResponse (α := CallRecord)
        { ok := true, status := 200, statusText := "OK",
          contentType := some "text/html", bodyJsonParses := false,
          detail := none, message := none, textOk := true,
          textBody := "", jsonValue := ⟨"", "", "", "", "", []⟩ }
      = .emptyObject :=
  ⟨(handleResponse_apiError_iff
      { ok := false, status := 500, statusText := "Internal Server Error",
        contentType := some "text/plain", bodyJsonParses := false,
        detail := none, message := none, textOk := true,
        textBody := "boom", jsonValue := ⟨"", "", "", "", "", []⟩ }).1.mpr rfl,
   (handleResponse_apiError_iff
      { ok := true, status := 200, statusText := "OK",
        contentType := some "text/html", bodyJsonParses := false,
        detail := none, message := none, textOk := true,
        textBody := "", jsonValue := ⟨"", "", "", "", "", []⟩ }).2 rfl
     (Or.inr (fun ct hct => by cases hct; decide))⟩

/-- C9. The request built by `getCalls` carries a `tag` query parameter
exactly when a non-empty tag was supplied, likewise for `sort`, and the
URL for an empty tag filter equals the URL of the unfiltered request. -/
theorem getCalls_tag_param_iff (p : Option GetCallsParams) :
    (("tag" ∈ (getCallsQueryParams p).map Prod.fst) ↔
      ∃ ps t, p = some ps ∧ ps.tag = some t ∧ t ≠ "")
    ∧ (("sort" ∈ (getCallsQueryParams p).map Prod.fst) ↔
      ∃ ps t, p = some ps ∧ ps.sort = some t ∧ t ≠ "")
    ∧ (∀ s, getCallsUrl (some { tag := some "", sort := s })
          = getCallsUrl (some { tag := none, sort := s })) := by
  refine ⟨?_, ?_, fun s => rfl⟩
  · cases p with
    | none => simp [getCallsQueryParams, jsTruthy]
    | some ps =>
      cases ht : ps.tag with
      | none => simp [getCallsQueryParams, jsTruthy, ht]
      | some t =>
        by_cases he : t = ""
        · subst he
          simp [getCallsQueryParams, jsTruthy, ht]
        · simp [getCallsQueryParams, jsTruthy, ht, he]
  · cases p with
    | none => simp [getCallsQueryParams, jsTruthy]
    | some ps =>
      cases hs : ps.sort with
      | none => simp [getCallsQueryParams, jsTruthy, hs]
      | some s =>
        by_cases he : s = ""
        · subst he
          simp [getCallsQueryParams, jsTruthy, hs]
        · simp [getCallsQueryParams, jsTruthy, hs, he]

/-- Floor of a rational divided by 60 equals the flooring integer division
of its floor by 60. -/
theorem floor_div_sixty (q : ℚ) : ⌊q / 60⌋ = ⌊q⌋ / 60 := by
  have hdm := Int.ediv_add_emod ⌊q⌋ 60
  have hm0 : 0 ≤ ⌊q⌋ % 60 := Int.emod_nonneg ⌊q⌋ (by norm_num)
  have hm1 : ⌊q⌋ % 60 < 60 := Int.emod_lt_of_pos ⌊q⌋ (by norm_num)
  rw [Int.floor_eq_iff]
  constructor
  · rw [le_div_iff₀ (by norm_num : (0:ℚ) < 60)]
    have h1 : ((⌊q⌋ / 60 : ℤ) : ℚ) * 60 ≤ (⌊q⌋ : ℚ) := by
      have h : (⌊q⌋ / 60) * 60 ≤ ⌊q⌋ := by omega
      exact_mod_cast h
    exact h1.trans (Int.floor_le q)
  · rw [div_lt_iff₀ (by norm_num : (0:ℚ) < 60)]
    have h2 : (⌊q⌋ : ℚ) + 1 ≤ (((⌊q⌋ / 60) * 60 + 60 : ℤ) : ℚ) := by
      have h : ⌊q⌋ + 1 ≤ (⌊q⌋ / 60) * 60 + 60 := by omega
      exact_mod_cast h
    calc q < (⌊q⌋ : ℚ) + 1 := Int.lt_floor_add_one q
      _ ≤ (((⌊q⌋ / 60) * 60 + 60 : ℤ) : ℚ) := h2
      _ = ((⌊q⌋ / 60 : ℤ) + 1) * 60 := by push_cast; ring

/-- C10. `formatTime` is total on its inputs: it returns `0:00` for `NaN`,
and for every non-negative finite number of seconds it returns the integer
number of whole minutes, a colon, and the remaining whole seconds
left-padded with zeros to two digits. -/
theorem formatTime_spec (q : ℚ) (h : 0 ≤ q) :
    formatTime .nan = "0:00"
    ∧ formatTime (.num q)
        = toString (⌊q⌋ / 60) ++ ":" ++ jsPadStart (toString (⌊q⌋ % 60)) 2 '0' := by
  refine ⟨rfl, ?_⟩
  show toString ⌊q / 60⌋ ++ ":" ++ jsPadStart (toString ⌊jsMod q 60⌋) 2 '0' = _
  have htr : jsTrunc (q / 60) = ⌊q / 60⌋ := by
    simp [jsTrunc, div_nonneg h (by norm_num : (0:ℚ) ≤ 60)]
  have hmod : ⌊jsMod q 60⌋ = ⌊q⌋ % 60 := by
    rw [jsMod, htr, floor_div_sixty]
    have hcast : q - 60 * ((⌊q⌋ / 60 : ℤ) : ℚ) = q - ((60 * (⌊q⌋ / 60) : ℤ) : ℚ) := by
      push_cast
      ring
    rw [hcast, Int.floor_sub_int]
    omega
  rw [floor_div_sixty, hmod]

/-- Witness for C10: 125 seconds of audio displays as `2:05`. -/
theorem formatTime_spec_witness :
    (0 : ℚ) ≤ 125
    ∧ formatTime (.num 125)
        = toString (⌊(125 : ℚ)⌋ / 60) ++ ":"
            ++ jsPadStart (toString (⌊(125 : ℚ)⌋ % 60)) 2 '0'
    ∧ formatTime (.num 125) = "2:05" := by
  refine ⟨by norm_num, (formatTime_spec 125 (by norm_num)).2, ?_⟩
  rw [(formatTime_spec 125 (by norm_num)).2]
  norm_num
  decide
